import Mathlib

/-!
Verification of the haiper remote-approval gateway.

This file shallowly embeds the Go source of the gateway (hook event model,
agent-facing hook responses, task lifecycle, the in-memory decision registry,
the webhook HTTP handlers and the operator decision endpoints) as executable
Lean definitions, and proves properties of the embedded code.

Modelling conventions:
- Go `string`-backed enums (`ActionType`) stay strings; closed enums that the
  code always branches on exhaustively (`HookType`, `TaskStatus`) become
  inductives.
- `time.Now()` becomes an explicit `now : Nat` parameter.
- `map[string]interface{}` payloads become association lists of strings; only
  their presence/identity matters to the properties proved here.
- The three-way `select` in the decision waiter becomes an explicit
  `WaitOutcome` parameter (sequential embedding of the race).
- Fallible Go code returns `Except String`; a Go panic becomes an `Except`
  error branch.
-/

namespace Haiper

/-- Hook event kinds; domain/hook.go `HookType` constants. -/
inductive HookType where
  | preToolUse
  | postToolUse
  | notification
  | userPromptSubmit
  | stop
  | subagentStop
  | preCompact
deriving DecidableEq, Repr

/-- The wire string of a hook type; domain/hook.go `HookType.String`. -/
def HookType.toGoString : HookType → String
  | .preToolUse => "PreToolUse"
  | .postToolUse => "PostToolUse"
  | .notification => "Notification"
  | .userPromptSubmit => "UserPromptSubmit"
  | .stop => "Stop"
  | .subagentStop => "SubagentStop"
  | .preCompact => "PreCompact"

/-- Drops leading whitespace characters from a character list. -/
def dropLeadingSpace : List Char → List Char
  | [] => []
  | c :: cs => if c.isWhitespace then dropLeadingSpace cs else c :: cs

/-- Go `strings.TrimSpace` over the character list: strips whitespace from
both ends. -/
def trimSpace (s : String) : String :=
  String.mk (List.reverse (dropLeadingSpace (List.reverse (dropLeadingSpace s.data))))

/-- domain/hook.go `ParseHookType`: trims whitespace and accepts exactly the
seven valid hook type strings, rejecting everything else. -/
def parseHookType (s : String) : Except String HookType :=
  let t := trimSpace s
  if t = "PreToolUse" then .ok .preToolUse
  else if t = "PostToolUse" then .ok .postToolUse
  else if t = "Notification" then .ok .notification
  else if t = "UserPromptSubmit" then .ok .userPromptSubmit
  else if t = "Stop" then .ok .stop
  else if t = "SubagentStop" then .ok .subagentStop
  else if t = "PreCompact" then .ok .preCompact
  else .error ("invalid hook type: " ++ s)

/-- Task lifecycle states; domain/task.go `TaskStatus` constants. -/
inductive TaskStatus where
  | pending
  | approved
  | rejected
  | completed
  | failed
deriving DecidableEq, Repr

/-- domain/task.go `TaskStatus.String`. -/
def TaskStatus.toGoString : TaskStatus → String
  | .pending => "pending"
  | .approved => "approved"
  | .rejected => "rejected"
  | .completed => "completed"
  | .failed => "failed"

/-- domain/task.go `type ActionType string`: operator decisions are raw
strings on the wire and in the domain model. -/
abbrev ActionType := String

def actionTypeApprove : ActionType := "approve"

def actionTypeReject : ActionType := "reject"

def actionTypeContinue : ActionType := "continue"

def actionTypeRetry : ActionType := "retry"

def actionTypeCancel : ActionType := "cancel"

/-- Operator-supplied response metadata; Go `map[string]interface{}`
modelled as a string association list. -/
abbrev ResponseData := List (String × String)

/-- Agent-facing response; domain/hook_response.go `HookResponse`.
`cont` is the JSON `continue` field (a Lean keyword). The `TaskID`,
`Decision` and `CreatedAt` fields are internal metadata not serialised to
the agent. -/
structure HookResponse where
  cont : Bool
  stopReason : String
  suppressOutput : Bool
  taskID : String
  decision : ActionType
  createdAt : Nat
deriving DecidableEq, Repr

/-- Categories of hook responses; domain/hook_response.go
`HookResponseType` constants. -/
inductive HookResponseType where
  | blocking
  | approved
  | rejected
  | timeout
  | continueResp
  | suppressed
deriving DecidableEq, Repr

/-- domain/hook_response.go `NewBlockingResponse`. The Go struct literal
leaves `SuppressOutput` and `Decision` at their zero values. -/
def newBlockingResponse (taskID reason : String) (now : Nat) : HookResponse :=
  { cont := false, stopReason := reason, suppressOutput := false
    taskID := taskID, decision := "", createdAt := now }

/-- domain/hook_response.go `NewApprovedResponse`. -/
def newApprovedResponse (taskID : String) (now : Nat) : HookResponse :=
  { cont := true, stopReason := "", suppressOutput := false
    taskID := taskID, decision := actionTypeApprove, createdAt := now }

/-- domain/hook_response.go `NewRejectedResponse`. -/
def newRejectedResponse (taskID reason : String) (now : Nat) : HookResponse :=
  { cont := false, stopReason := reason, suppressOutput := false
    taskID := taskID, decision := actionTypeReject, createdAt := now }

/-- domain/hook_response.go `NewTimeoutResponse`; `timeoutStr` stands for the
Go `timeout.String()` rendering (for five minutes: "5m0s"). -/
def newTimeoutResponse (taskID timeoutStr : String) (now : Nat) : HookResponse :=
  { cont := false, stopReason := "User decision timeout after " ++ timeoutStr
    suppressOutput := false, taskID := taskID, decision := "", createdAt := now }

/-- domain/hook_response.go `NewContinueResponse`. -/
def newContinueResponse (now : Nat) : HookResponse :=
  { cont := true, stopReason := "", suppressOutput := false
    taskID := "", decision := "", createdAt := now }

/-- domain/hook_response.go `NewSuppressedResponse`. -/
def newSuppressedResponse (now : Nat) : HookResponse :=
  { cont := true, stopReason := "", suppressOutput := true
    taskID := "", decision := "", createdAt := now }

/-- Prefix of the first `n` characters of a string (the Go slice `s[:n]` on
ASCII data). -/
def takeChars (s : String) (n : Nat) : String :=
  String.mk (s.data.take n)

/-- domain/hook_response.go `GetResponseType`. The Go body evaluates
`hr.StopReason[:7]` guarded only by non-emptiness; when the string is
shorter than 7 it panics with a slice-bounds error, embedded here as the
`Except.error` branch. Go byte indexing coincides with character indexing
on the ASCII strings this code produces. -/
def getResponseType (hr : HookResponse) : Except String HookResponseType :=
  if hr.cont then
    if hr.suppressOutput then .ok .suppressed
    else if hr.decision = actionTypeApprove then .ok .approved
    else .ok .continueResp
  else if hr.decision = actionTypeReject then .ok .rejected
  else if hr.stopReason ≠ "" then
    if hr.stopReason.length < 7 then .error "slice bounds out of range"
    else if takeChars hr.stopReason 7 = "timeout" then .ok .timeout
    else .ok .blocking
  else .ok .blocking

/-- adapters/response `HookResponseBuilder.BuildResponseFromDecision`:
approve, reject and cancel are mapped explicitly; every other decision
value (including "continue") falls into the default approved branch. -/
def buildResponseFromDecision (taskID : String) (decision : ActionType) (now : Nat) :
    HookResponse :=
  if decision = actionTypeApprove then newApprovedResponse taskID now
  else if decision = actionTypeReject then
    newRejectedResponse taskID "User rejected this action" now
  else if decision = actionTypeCancel then
    newRejectedResponse taskID "User cancelled this action" now
  else newApprovedResponse taskID now

/-- Tool input parameters from the agent; adapters/http webhook_handler.go
`ToolInput`. -/
structure ToolInput where
  command : String
  description : String
deriving DecidableEq, Repr

/-- Tool execution results from the agent; adapters/http webhook_handler.go
`ToolResponse`. -/
structure ToolResponse where
  interrupted : Bool
  isImage : Bool
  stderr : String
  stdout : String
deriving DecidableEq, Repr

/-- Structured form of an inbound webhook body; adapters/http
webhook_handler.go `ClaudeCodeWebhookRequest` (the raw-data map is carried
by `WebhookBody` below). -/
structure ClaudeCodeWebhookRequest where
  hookEventName : String
  sessionID : String
  cwd : String
  transcriptPath : String
  toolName : String
  toolInput : Option ToolInput
  toolResponse : Option ToolResponse
  message : String
deriving DecidableEq, Repr

/-- The all-zero request produced by Go JSON decoding of an empty body. -/
def emptyRequest : ClaudeCodeWebhookRequest :=
  { hookEventName := "", sessionID := "", cwd := "", transcriptPath := ""
    toolName := "", toolInput := none, toolResponse := none, message := "" }

/-- Unified hook payload; domain/hook.go `HookData`. The per-kind structured
projection (`populateFromMap`) copies fields verbatim, so the payload is
kept as the request it was built from; only `type` is consulted by the
code under verification. -/
structure HookData where
  type : HookType
  payload : Option ClaudeCodeWebhookRequest
deriving DecidableEq, Repr

/-- Durable task record; domain/task.go `Task`. The `TaskData` JSON snapshot
is not consulted by any verified operation and is omitted. -/
structure Task where
  id : String
  hookType : HookType
  status : TaskStatus
  createdAt : Nat
  updatedAt : Nat
  actionTaken : Option ActionType
  responseData : Option ResponseData
deriving DecidableEq, Repr

/-- domain/task.go `NewTask`: fresh id, Pending status, both timestamps set
to the creation instant. -/
def newTask (id : String) (hookType : HookType) (now : Nat) : Task :=
  { id := id, hookType := hookType, status := .pending
    createdAt := now, updatedAt := now, actionTaken := none, responseData := none }

/-- domain/task.go `Task.TakeAction`: records the action and response data,
refreshes `UpdatedAt`, and maps the four known actions to statuses; any
other action string leaves the status field untouched. -/
def Task.takeAction (t : Task) (action : ActionType) (rd : ResponseData) (now : Nat) :
    Task :=
  let t1 := { t with actionTaken := some action, responseData := some rd, updatedAt := now }
  if action = actionTypeApprove then { t1 with status := .approved }
  else if action = actionTypeReject then { t1 with status := .rejected }
  else if action = actionTypeContinue then { t1 with status := .completed }
  else if action = actionTypeCancel then { t1 with status := .failed }
  else t1

/-- domain/task.go `Task.IsActionable`: only Pending tasks accept actions. -/
def Task.isActionable (t : Task) : Bool :=
  t.status == TaskStatus.pending

/-- Audit entry; domain/task_history.go `TaskHistory` (id and timestamp
omitted: no verified property consults them). -/
structure TaskHistory where
  taskID : String
  action : String
  data : ResponseData
deriving DecidableEq, Repr

/-- The rendezvous registry; services/task_decision_manager.go
`TaskDecisionManager.decisions`. Each entry is a task id paired with the
buffer of its capacity-1 decision channel (`none` = empty). -/
abbrev Registry := List (String × Option ActionType)

/-- services/task_decision_manager.go `CreateDecisionChannel`: allocates a
fresh empty channel and stores it under the task id (Go map assignment
replaces any previous entry). -/
def createDecisionChannel (taskID : String) (reg : Registry) : Registry :=
  (taskID, none) :: reg.filter (fun e => e.1 != taskID)

/-- services/task_decision_manager.go `SendDecision`: non-blocking send —
writes into an existing empty channel and reports true; reports false when
the channel is absent or already full. -/
def sendDecision (taskID : String) (decision : ActionType) (reg : Registry) :
    Bool × Registry :=
  match reg.find? (fun e => e.1 == taskID) with
  | some (_, none) =>
      (true, reg.map (fun e => if e.1 == taskID then (e.1, some decision) else e))
  | some (_, some _) => (false, reg)
  | none => (false, reg)

/-- services/task_decision_manager.go `RemoveDecisionChannel`: closes and
deletes the entry when present. -/
def removeDecisionChannel (taskID : String) (reg : Registry) : Registry :=
  reg.filter (fun e => e.1 != taskID)

/-- services/task_decision_manager.go `HasPendingDecision`. -/
def hasPendingDecision (taskID : String) (reg : Registry) : Bool :=
  reg.any (fun e => e.1 == taskID)

/-- services/task_decision_manager.go `GetActiveDecisions`. -/
def getActiveDecisions (reg : Registry) : Nat :=
  reg.length

/-- Result of the three-way select inside `WaitForDecision`: a decision
arrived on the channel, the timeout fired, or the caller's context was
cancelled. -/
inductive WaitOutcome where
  | decided (d : ActionType)
  | timeout
  | cancelled
deriving DecidableEq, Repr

/-- services/errors.go `ErrDecisionTimeout`. -/
def errDecisionTimeout : String := "timeout waiting for user decision"

/-- services/task_decision_manager.go `WaitForDecision`: opens the channel,
races the three sources (embedded as `outcome`), and removes the channel on
every exit path (the Go `defer RemoveDecisionChannel`). -/
def waitForDecision (reg : Registry) (taskID : String) (outcome : WaitOutcome) :
    Except String ActionType × Registry :=
  let reg1 := createDecisionChannel taskID reg
  let res : Except String ActionType :=
    match outcome with
    | .decided d => .ok d
    | .timeout => .error errDecisionTimeout
    | .cancelled => .error "context canceled"
  (res, removeDecisionChannel taskID reg1)

/-- Combined mutable state of the gateway: the task table, the append-only
history table, and the in-memory rendezvous registry. -/
structure GatewayState where
  tasks : List Task
  history : List TaskHistory
  registry : Registry
deriving DecidableEq, Repr

/-- postgres task repository `GetByID`, keyed lookup. -/
def getByID (tasks : List Task) (id : String) : Option Task :=
  tasks.find? (fun t => t.id == id)

/-- postgres task repository `Update`: replaces the stored row with the
given task's mutable fields. -/
def updateTask (tasks : List Task) (t : Task) : List Task :=
  tasks.map (fun u => if u.id == t.id then t else u)

/-- Task service configuration; services/task_service.go
`TaskServiceConfig`. -/
structure TaskServiceConfig where
  webDomain : String
  autoNotifyHookTypes : List HookType
deriving Repr

/-- Default notify set installed by `NewTaskService` when none is given. -/
def defaultAutoNotifyHookTypes : List HookType :=
  [.preToolUse, .notification, .userPromptSubmit]

/-- services/task_service.go `shouldNotify`. -/
def shouldNotify (cfg : TaskServiceConfig) (hookType : HookType) : Bool :=
  cfg.autoNotifyHookTypes.contains hookType

/-- services/task_service.go `TaskService.TakeAction`: loads the task,
refuses non-actionable (non-Pending) tasks before touching anything, and
otherwise applies `Task.TakeAction`, updates the store and appends a
history entry. The tmux side effect is external and logged-only, so it has
no footprint in the state. -/
def serviceTakeAction (st : GatewayState) (taskID : String) (action : ActionType)
    (rd : ResponseData) (now : Nat) : Except String Unit × GatewayState :=
  match getByID st.tasks taskID with
  | none => (.error "failed to get task", st)
  | some task =>
    if task.isActionable then
      let task1 := task.takeAction action rd now
      (.ok (),
        { st with tasks := updateTask st.tasks task1
                  history := { taskID := task1.id, action := action, data := rd } :: st.history })
    else
      (.error ("task " ++ taskID ++ " is not actionable (status: "
                ++ task.status.toGoString ++ ")"), st)

/-- services/task_service.go `CreateTaskAndWaitForDecision`: persists a
fresh Pending task, appends the `created` history entry, notifies when the
hook type is in the notify set (modelled as succeeding; a notifier failure
only skips the `notified` entry), then waits on the registry. On timeout or
cancellation the task status is overwritten to Failed (directly, without
refreshing `UpdatedAt`) and the wait error is propagated; on a decision the
task takes the action, is updated and a history entry named after the
decision is appended. The `tool` entry of the created-history data (the
hook payload's tool name) is omitted: no verified property consults it. -/
def createTaskAndWaitForDecision (cfg : TaskServiceConfig) (st : GatewayState)
    (hookData : HookData) (newID : String) (now : Nat) (outcome : WaitOutcome) :
    Except String (Task × ActionType) × GatewayState :=
  let task := newTask newID hookData.type now
  let st1 := { st with tasks := task :: st.tasks
                       history := { taskID := task.id, action := "created"
                                    data := [("hook_type", hookData.type.toGoString),
                                             ("blocking", "true")] } :: st.history }
  let st2 :=
    if shouldNotify cfg hookData.type then
      { st1 with history := { taskID := task.id, action := "notified", data := [] } :: st1.history }
    else st1
  match waitForDecision st2.registry task.id outcome with
  | (.error e, reg) =>
      let task1 := { task with status := .failed }
      (.error e, { st2 with registry := reg, tasks := updateTask st2.tasks task1 })
  | (.ok decision, reg) =>
      let task1 := task.takeAction decision
        [("decision_time", toString now), ("blocking_call", "true")] now
      (.ok (task1, decision),
        { st2 with registry := reg
                   tasks := updateTask st2.tasks task1
                   history := { taskID := task1.id, action := decision
                                data := [("blocking_decision", "true")] } :: st2.history })

/-- HTTP response bodies the gateway writes. `hook` is `respondWithJSON` of
a `HookResponse`; `err` is `respondWithError` (success=false plus the
message); `okMsg` is the JSON success acknowledgement of the action API;
`redirect` is the form endpoint's see-other; `decided` carries the value
the blocking handler serialises on success (the task and decision returned
by the service). -/
inductive HTTPBody where
  | hook (r : HookResponse)
  | err (message : String)
  | okMsg (message : String)
  | redirect (location : String)
  | decided (t : Task) (d : ActionType)
deriving DecidableEq, Repr

/-- An HTTP status code paired with the written body. -/
structure HTTPReply where
  status : Nat
  body : HTTPBody
deriving DecidableEq, Repr

/-- An inbound webhook body as the handler sees it after `io.ReadAll`:
empty, JSON that fails to unmarshal, or a well-formed JSON object together
with its byte length. For a well-formed body the raw-data map's
`hook_event_name` entry is reflected by the (non-empty) structured field. -/
inductive WebhookBody where
  | empty
  | invalidJSON
  | valid (req : ClaudeCodeWebhookRequest) (byteLen : Nat)
deriving DecidableEq, Repr

/-- adapters/http webhook_handler.go `validateRequest`: unknown hook names,
malformed session ids, suspicious paths and suspicious commands are only
logged; the single rejecting check is a non-empty tool command longer than
5000 characters (Go counts bytes; on ASCII commands that equals the
character count used here). -/
def validateRequest (req : ClaudeCodeWebhookRequest) : Except String Unit :=
  match req.toolInput with
  | some ti =>
      if ti.command = "" then .ok ()
      else if ti.command.length > 5000 then
        .error ("command too long: " ++ toString ti.command.length
                 ++ " characters (max 5000)")
      else .ok ()
  | none => .ok ()

/-- adapters/http webhook_handler.go `parseAndValidateRequest`: reads the
whole body (its length is never compared against the handler's
`maxBodySize` field), admits empty bodies as-is, rejects malformed JSON,
and otherwise runs `validateRequest`. -/
def parseAndValidateRequest (body : WebhookBody) : Except String ClaudeCodeWebhookRequest :=
  match body with
  | .empty => .ok emptyRequest
  | .invalidJSON => .error "invalid JSON"
  | .valid req _byteLen =>
      match validateRequest req with
      | .ok _ => .ok req
      | .error e => .error e

/-- The `hook_event_name` entry of the raw payload map, when present. -/
def bodyEventName (body : WebhookBody) : Option String :=
  match body with
  | .valid req _ => if req.hookEventName = "" then none else some req.hookEventName
  | _ => none

/-- The hook-type override shared by `handleNonBlockingWebhook` and
`handleBlockingWebhook`: a recognised `hook_event_name` in the JSON body
replaces the URL-derived hook type; otherwise the URL's type stands. -/
def resolveHookType (urlType : HookType) (body : WebhookBody) : HookType :=
  match bodyEventName body with
  | some s =>
      match parseHookType s with
      | .ok t => t
      | .error _ => urlType
  | none => urlType

/-- The immediate response literal of the generic non-blocking handler:
continue with suppressed output, all other fields at their zero values. -/
def nonBlockingReply : HookResponse :=
  { cont := true, stopReason := "", suppressOutput := true
    taskID := "", decision := "", createdAt := 0 }

/-- The immediate response literal of the notification handler: continue
with output shown to the user. -/
def notificationReply : HookResponse :=
  { cont := true, stopReason := "", suppressOutput := false
    taskID := "", decision := "", createdAt := 0 }

/-- adapters/http webhook_handler.go `handleNonBlockingWebhook` (serving
the pre-tool-use, post-tool-use, user-prompt-submit, pre-compact and
subagent-stop routes): validates, lets the body's `hook_event_name` win
over the URL type, persists a task only for PreToolUse and
UserPromptSubmit, and always answers 200 with continue plus suppressed
output. The `CreateTask` persistence port is modelled as insertion into
the task table; a create failure is logged and does not fail the
webhook. -/
def handleNonBlockingWebhook (st : GatewayState) (body : WebhookBody)
    (urlType : HookType) (newID : String) (now : Nat) : HTTPReply × GatewayState :=
  match parseAndValidateRequest body with
  | .error e => ({ status := 400, body := .err ("Validation error: " ++ e) }, st)
  | .ok _req =>
    let hookType := resolveHookType urlType body
    let createTask := hookType == HookType.preToolUse || hookType == HookType.userPromptSubmit
    let st1 :=
      if createTask then { st with tasks := newTask newID hookType now :: st.tasks }
      else st
    ({ status := 200, body := .hook nonBlockingReply }, st1)

/-- adapters/http webhook_handler.go `handleStop`: validates, always treats
the event as Stop (the body's `hook_event_name` is never consulted),
persists a task, and answers 200 with continue plus suppressed output. -/
def handleStop (st : GatewayState) (body : WebhookBody) (newID : String) (now : Nat) :
    HTTPReply × GatewayState :=
  match parseAndValidateRequest body with
  | .error e => ({ status := 400, body := .err ("Validation error: " ++ e) }, st)
  | .ok _req =>
    let st1 := { st with tasks := newTask newID HookType.stop now :: st.tasks }
    ({ status := 200, body := .hook nonBlockingReply }, st1)

/-- adapters/http webhook_handler.go `handleNotification`: validates,
always treats the event as Notification (the body's `hook_event_name` is
never consulted), persists a task, and answers 200 with continue and
output shown. -/
def handleNotification (st : GatewayState) (body : WebhookBody) (newID : String)
    (now : Nat) : HTTPReply × GatewayState :=
  match parseAndValidateRequest body with
  | .error e => ({ status := 400, body := .err ("Validation error: " ++ e) }, st)
  | .ok _req =>
    let st1 := { st with tasks := newTask newID HookType.notification now :: st.tasks }
    ({ status := 200, body := .hook notificationReply }, st1)

/-- adapters/http webhook_handler.go `handleGenericWebhook`: an unknown URL
slug falls back to PreToolUse before delegating to the non-blocking
handler. -/
def handleGenericWebhook (st : GatewayState) (body : WebhookBody) (slug : String)
    (newID : String) (now : Nat) : HTTPReply × GatewayState :=
  let urlType :=
    match parseHookType slug with
    | .ok t => t
    | .error _ => HookType.preToolUse
  handleNonBlockingWebhook st body urlType newID now

/-- adapters/http webhook_handler.go `handleBlockingWebhook`: validates,
lets the body's `hook_event_name` win over the URL type, then runs
`CreateTaskAndWaitForDecision` with the five-minute timeout. Any service
error — including the decision timeout — is answered with HTTP 500 and the
fixed failure message; the success payload is the value the service
returned. -/
def handleBlockingWebhook (cfg : TaskServiceConfig) (st : GatewayState)
    (body : WebhookBody) (urlType : HookType) (newID : String) (now : Nat)
    (outcome : WaitOutcome) : HTTPReply × GatewayState :=
  match parseAndValidateRequest body with
  | .error e => ({ status := 400, body := .err ("Validation error: " ++ e) }, st)
  | .ok req =>
    let hookType := resolveHookType urlType body
    let hookData : HookData := { type := hookType, payload := some req }
    match createTaskAndWaitForDecision cfg st hookData newID now outcome with
    | (.error _, st1) =>
        ({ status := 500, body := .err "Failed to process blocking webhook" }, st1)
    | (.ok (task, d), st1) =>
        ({ status := 200, body := .decided task d }, st1)

/-- JSON payload of the action API; web_handler.go `handleTaskActionAPI`'s
anonymous payload struct. -/
structure ActionPayload where
  action : String
  response : Option ResponseData
deriving DecidableEq, Repr

/-- web_handler.go `handleTaskActionAPI` (POST /api/tasks/id/action):
rejects an unparseable task id, unparseable JSON and an empty action with
400 — the action string itself is never checked against the known decision
set — then forwards the decision to a waiting blocking handler when one
exists, and finally calls `TaskService.TakeAction`; a service error (task
missing or not actionable) is answered 500, success 200. `idValid` stands
for `uuid.Parse` succeeding and `payload = none` for a JSON decode
failure; `userAgent` is the request header merged into the response
data. -/
def handleTaskActionAPI (st : GatewayState) (idValid : Bool) (taskID : String)
    (payload : Option ActionPayload) (userAgent : String) (now : Nat) :
    HTTPReply × GatewayState :=
  if !idValid then ({ status := 400, body := .err "Invalid task ID" }, st)
  else
    match payload with
    | none => ({ status := 400, body := .err "Invalid JSON payload" }, st)
    | some p =>
      if p.action = "" then ({ status := 400, body := .err "Action is required" }, st)
      else
        let rd := (p.response.getD []) ++ [("user_agent", userAgent), ("api_request", "true")]
        let st1 :=
          if hasPendingDecision taskID st.registry then
            { st with registry := (sendDecision taskID p.action st.registry).2 }
          else st
        match serviceTakeAction st1 taskID p.action rd now with
        | (.error _, st2) => ({ status := 500, body := .err "Failed to process action" }, st2)
        | (.ok _, st2) =>
            ({ status := 200
               body := .okMsg ("Action " ++ p.action ++ " processed successfully") }, st2)

/-- web_handler.go `handleTaskAction` (form POST /task/id/action): same
pipeline as the API variant with form fields, redirecting to the task
detail page on success. `formValid` stands for `r.ParseForm` succeeding. -/
def handleTaskAction (st : GatewayState) (idValid : Bool) (taskID : String)
    (formValid : Bool) (action comment timestamp userAgent : String) (now : Nat) :
    HTTPReply × GatewayState :=
  if !idValid then ({ status := 400, body := .err "Invalid task ID" }, st)
  else if !formValid then ({ status := 400, body := .err "Invalid form data" }, st)
  else if action = "" then ({ status := 400, body := .err "Action is required" }, st)
  else
    let rd := [("user_agent", userAgent), ("timestamp", timestamp), ("comment", comment)]
    let st1 :=
      if hasPendingDecision taskID st.registry then
        { st with registry := (sendDecision taskID action st.registry).2 }
      else st
    match serviceTakeAction st1 taskID action rd now with
    | (.error _, st2) => ({ status := 500, body := .err "Failed to process action" }, st2)
    | (.ok _, st2) => ({ status := 303, body := .redirect ("/task/" ++ taskID) }, st2)

/-! Helper lemmas (shared; not themselves claim theorems). -/

/-- Removing a key leaves no pending decision under that key. -/
theorem hasPendingDecision_remove (taskID : String) (reg : Registry) :
    hasPendingDecision taskID (removeDecisionChannel taskID reg) = false := by
  unfold hasPendingDecision removeDecisionChannel
  induction reg with
  | nil => rfl
  | cons e tl ih =>
      by_cases h : e.1 = taskID
      · simp only [List.filter_cons, h, bne_self_eq_false, Bool.false_eq_true,
          reduceIte]
        exact ih
      · simp only [List.filter_cons, if_pos (by simp [h] : (e.1 != taskID) = true),
          List.any_cons, Bool.or_eq_false_iff]
        exact ⟨by simp [h], ih⟩

/-- Removing an absent key is a no-op. -/
theorem remove_absent (taskID : String) (reg : Registry)
    (h : hasPendingDecision taskID reg = false) :
    removeDecisionChannel taskID reg = reg := by
  unfold hasPendingDecision at h
  unfold removeDecisionChannel
  induction reg with
  | nil => rfl
  | cons e tl ih =>
      simp only [List.any_cons, Bool.or_eq_false_iff] at h
      have hne : e.1 ≠ taskID := by simpa using h.1
      simp [List.filter_cons, hne, ih h.2]

/-- The waiter's net registry effect is exactly the removal of its key. -/
theorem waitForDecision_registry_eq (reg : Registry) (taskID : String)
    (outcome : WaitOutcome) :
    (waitForDecision reg taskID outcome).2 = removeDecisionChannel taskID reg := by
  unfold waitForDecision createDecisionChannel removeDecisionChannel
  cases outcome <;> simp [List.filter_filter]

/-- `TaskService.TakeAction` on a non-Pending task errors without touching
the state. -/
theorem serviceTakeAction_not_actionable (st : GatewayState) (taskID : String)
    (task : Task) (action : ActionType) (rd : ResponseData) (now : Nat)
    (hfind : getByID st.tasks taskID = some task)
    (hterm : task.status ≠ TaskStatus.pending) :
    serviceTakeAction st taskID action rd now =
      (.error ("task " ++ taskID ++ " is not actionable (status: "
                ++ task.status.toGoString ++ ")"), st) := by
  unfold serviceTakeAction
  rw [hfind]
  have hact : task.isActionable = false := by
    unfold Task.isActionable
    simpa using hterm
  simp [hact]

/-- A successful keyed lookup returns a task carrying the looked-up id. -/
theorem getByID_some_id (tasks : List Task) (taskID : String) (task : Task)
    (hfind : getByID tasks taskID = some task) : task.id = taskID := by
  unfold getByID at hfind
  have := List.find?_some hfind
  simpa using this

/-- After `Update` with a row keyed like an existing one, lookup returns the
new row. -/
theorem getByID_updateTask (tasks : List Task) (taskID : String) (task t1 : Task)
    (hfind : getByID tasks taskID = some task) (hid : t1.id = taskID) :
    getByID (updateTask tasks t1) taskID = some t1 := by
  unfold getByID updateTask at *
  induction tasks with
  | nil => exact absurd hfind (by simp)
  | cons u tl ih =>
      by_cases hu : u.id = taskID
      · simp [List.find?_cons, hu, hid]
      · rw [List.find?_cons_of_neg _ (by simpa using hu)] at hfind
        simp only [List.map_cons]
        rw [if_neg (by simp [hu, hid]), List.find?_cons_of_neg _ (by simpa using hu)]
        exact ih hfind

/-! Claim theorems. -/

/-- Claim C2: the decision-to-response mapping of
`BuildResponseFromDecision` is total over all action strings: approve maps
to the approved response (continue, empty stop reason); reject and cancel
map to rejected responses with their fixed reasons; continue and every
other value default to the approved response; and no branch ever sets
`suppressOutput`. -/
theorem buildResponseFromDecision_total (t : String) (d : ActionType) (now : Nat) :
    (buildResponseFromDecision t d now).suppressOutput = false ∧
    (d = actionTypeApprove →
      (buildResponseFromDecision t d now).cont = true ∧
      (buildResponseFromDecision t d now).stopReason = "") ∧
    (d = actionTypeReject →
      (buildResponseFromDecision t d now).cont = false ∧
      (buildResponseFromDecision t d now).stopReason = "User rejected this action") ∧
    (d = actionTypeCancel →
      (buildResponseFromDecision t d now).cont = false ∧
      (buildResponseFromDecision t d now).stopReason = "User cancelled this action") ∧
    (d ≠ actionTypeReject → d ≠ actionTypeCancel →
      buildResponseFromDecision t d now = newApprovedResponse t now) := by
  by_cases ha : d = actionTypeApprove
  · subst ha
    refine ⟨rfl, fun _ => ⟨rfl, rfl⟩, ?_, ?_, fun _ _ => rfl⟩
    · intro h; exact absurd h (by decide)
    · intro h; exact absurd h (by decide)
  · by_cases hr : d = actionTypeReject
    · subst hr
      refine ⟨rfl, ?_, fun _ => ⟨rfl, rfl⟩, ?_, ?_⟩
      · intro h; exact absurd h (by decide)
      · intro h; exact absurd h (by decide)
      · intro h; exact absurd rfl h
    · by_cases hc : d = actionTypeCancel
      · subst hc
        refine ⟨?_, ?_, ?_, ?_, ?_⟩
        · simp [buildResponseFromDecision, newRejectedResponse, actionTypeCancel,
                actionTypeApprove, actionTypeReject]
        · intro h; exact absurd h (by decide)
        · intro h; exact absurd h (by decide)
        · intro _
          constructor <;>
            simp [buildResponseFromDecision, newRejectedResponse, actionTypeCancel,
                  actionTypeApprove, actionTypeReject]
        · intro _ h; exact absurd rfl h
      · have hb : buildResponseFromDecision t d now = newApprovedResponse t now := by
          unfold buildResponseFromDecision
          rw [if_neg ha, if_neg hr, if_neg hc]
        refine ⟨?_, ?_, ?_, ?_, fun _ _ => hb⟩
        · rw [hb]; rfl
        · intro h; exact absurd h ha
        · intro h; exact absurd h hr
        · intro h; exact absurd h hc

/-- Claim C2 witness: the mapping evaluated at "retry" and "reject". -/
theorem buildResponseFromDecision_total_witness :
    (buildResponseFromDecision "task-1" "retry" 0).cont = true ∧
    (buildResponseFromDecision "task-1" "reject" 7).stopReason = "User rejected this action" := by
  constructor
  · rw [(buildResponseFromDecision_total "task-1" "retry" 0).2.2.2.2 (by decide) (by decide)]
    rfl
  · exact ((buildResponseFromDecision_total "task-1" "reject" 7).2.2.1 rfl).2

/-- Claim C10: `GetResponseType` is partial — on any response with
continue false, a decision other than reject and a non-empty stop reason
shorter than 7 characters, the Go code's `hr.StopReason` 7-byte slice is
out of range; the embedding reaches the error branch standing for that
panic. -/
theorem getResponseType_short_stopReason_panics (hr : HookResponse)
    (hc : hr.cont = false) (hd : hr.decision ≠ actionTypeReject)
    (hs : hr.stopReason ≠ "") (hl : hr.stopReason.length < 7) :
    getResponseType hr = .error "slice bounds out of range" := by
  unfold getResponseType
  simp [hc, hd, hs, hl]

/-- Claim C10 witness: `NewBlockingResponse` with reason "no" reaches the
panic branch. -/
theorem getResponseType_short_stopReason_panics_witness :
    getResponseType (newBlockingResponse "task-1" "no" 0) =
      .error "slice bounds out of range" :=
  getResponseType_short_stopReason_panics (newBlockingResponse "task-1" "no" 0)
    rfl (by decide) (by decide) (by decide)

/-- Claim C8: every exit of `WaitForDecision` — decision received, timeout,
or cancellation — removes the task's decision channel, so no pending
decision remains for that id; the net registry effect is exactly the
removal, so a waiter on a fresh id restores the registry it found, and in
particular the registry is empty again whenever the waiters that opened its
entries have all returned. -/
theorem waitForDecision_cleans_registry (reg : Registry) (taskID : String)
    (outcome : WaitOutcome) :
    hasPendingDecision taskID (waitForDecision reg taskID outcome).2 = false ∧
    (waitForDecision reg taskID outcome).2 = removeDecisionChannel taskID reg ∧
    (hasPendingDecision taskID reg = false →
      (waitForDecision reg taskID outcome).2 = reg) := by
  refine ⟨?_, waitForDecision_registry_eq reg taskID outcome, ?_⟩
  · rw [waitForDecision_registry_eq]
    exact hasPendingDecision_remove taskID reg
  · intro h
    rw [waitForDecision_registry_eq]
    exact remove_absent taskID reg h

/-- Claim C8 witness: a timeout waiter on an empty registry leaves it
empty. -/
theorem waitForDecision_cleans_registry_witness :
    (waitForDecision [] "task-1" WaitOutcome.timeout).2 = [] :=
  (waitForDecision_cleans_registry [] "task-1" WaitOutcome.timeout).2.2 rfl

/-- Claim C3: terminal statuses are sticky — for every stored task whose
status is not Pending, `TaskService.TakeAction` returns the
not-actionable error and returns the state unchanged, so status,
action_taken, response_data and updated_at all keep their values. -/
theorem serviceTakeAction_terminal_sticky (st : GatewayState) (taskID : String)
    (task : Task) (action : ActionType) (rd : ResponseData) (now : Nat)
    (hfind : getByID st.tasks taskID = some task)
    (hterm : task.status ≠ TaskStatus.pending) :
    serviceTakeAction st taskID action rd now =
      (.error ("task " ++ taskID ++ " is not actionable (status: "
                ++ task.status.toGoString ++ ")"), st) :=
  serviceTakeAction_not_actionable st taskID task action rd now hfind hterm

/-- Claim C3 witness: acting on a concrete Failed task errors and keeps the
state. -/
theorem serviceTakeAction_terminal_sticky_witness :
    (serviceTakeAction
        ⟨[{ newTask "c3" HookType.preToolUse 1 with status := TaskStatus.failed }], [], []⟩
        "c3" "approve" [] 9).2 =
      ⟨[{ newTask "c3" HookType.preToolUse 1 with status := TaskStatus.failed }], [], []⟩ := by
  rw [serviceTakeAction_terminal_sticky
        ⟨[{ newTask "c3" HookType.preToolUse 1 with status := TaskStatus.failed }], [], []⟩
        "c3" ({ newTask "c3" HookType.preToolUse 1 with status := TaskStatus.failed })
        "approve" [] 9 (by decide) (by decide)]

/-- Concrete terminal task for the late-decision scenario. -/
def taskC4 : Task := { newTask "c4" HookType.preToolUse 0 with status := TaskStatus.failed }

/-- Claim C4 counterexample: a decision for a task already in a terminal
status is answered with HTTP 500, not with a 200/OK acknowledgement; the
task itself is unchanged. -/
theorem late_decision_counterexample :
    (handleTaskActionAPI ⟨[taskC4], [], []⟩ true "c4" (some ⟨"approve", none⟩) "ua" 360).1.status = 500 ∧
    ¬ (handleTaskActionAPI ⟨[taskC4], [], []⟩ true "c4" (some ⟨"approve", none⟩) "ua" 360).1.status = 200 ∧
    getByID (handleTaskActionAPI ⟨[taskC4], [], []⟩ true "c4" (some ⟨"approve", none⟩) "ua" 360).2.tasks "c4"
      = some taskC4 := by
  decide

/-- Claim C4 (amended): a decision delivered for a task already in a
terminal status makes both decision endpoints answer HTTP 500 ("Failed to
process action"); the task table is unchanged, so the task keeps its
terminal status. -/
theorem late_decision_returns_500_unchanged (st : GatewayState) (taskID : String)
    (task : Task) (p : ActionPayload) (userAgent : String)
    (action comment timestamp ua2 : String) (now : Nat)
    (hfind : getByID st.tasks taskID = some task)
    (hterm : task.status ≠ TaskStatus.pending)
    (hpa : p.action ≠ "") (hact : action ≠ "") :
    ((handleTaskActionAPI st true taskID (some p) userAgent now).1.status = 500 ∧
      (handleTaskActionAPI st true taskID (some p) userAgent now).2.tasks = st.tasks) ∧
    ((handleTaskAction st true taskID true action comment timestamp ua2 now).1.status = 500 ∧
      (handleTaskAction st true taskID true action comment timestamp ua2 now).2.tasks = st.tasks) := by
  have key : ∀ (reg : Registry) (act : ActionType) (rd : ResponseData),
      serviceTakeAction ⟨st.tasks, st.history, reg⟩ taskID act rd now =
        (.error ("task " ++ taskID ++ " is not actionable (status: "
                  ++ task.status.toGoString ++ ")"), ⟨st.tasks, st.history, reg⟩) :=
    fun reg act rd =>
      serviceTakeAction_not_actionable ⟨st.tasks, st.history, reg⟩ taskID task act rd now
        hfind hterm
  constructor
  · simp only [handleTaskActionAPI, Bool.not_true, Bool.false_eq_true, reduceIte, hpa,
      ite_false]
    by_cases hreg : hasPendingDecision taskID st.registry
    · simp only [hreg, reduceIte]
      rw [key]
      exact ⟨rfl, rfl⟩
    · simp only [hreg, Bool.false_eq_true, reduceIte]
      rw [serviceTakeAction_not_actionable st taskID task _ _ now hfind hterm]
      exact ⟨rfl, rfl⟩
  · simp only [handleTaskAction, Bool.not_true, Bool.false_eq_true, reduceIte, hact,
      ite_false]
    by_cases hreg : hasPendingDecision taskID st.registry
    · simp only [hreg, reduceIte]
      rw [key]
      exact ⟨rfl, rfl⟩
    · simp only [hreg, Bool.false_eq_true, reduceIte]
      rw [serviceTakeAction_not_actionable st taskID task _ _ now hfind hterm]
      exact ⟨rfl, rfl⟩

/-- Claim C4 witness: the amended statement at a concrete Completed task. -/
theorem late_decision_returns_500_unchanged_witness :
    (handleTaskActionAPI
        ⟨[{ newTask "w4" HookType.stop 2 with status := TaskStatus.completed }], [], []⟩
        true "w4" (some ⟨"reject", none⟩) "ua" 99).1.status = 500 :=
  (late_decision_returns_500_unchanged
      ⟨[{ newTask "w4" HookType.stop 2 with status := TaskStatus.completed }], [], []⟩
      "w4" ({ newTask "w4" HookType.stop 2 with status := TaskStatus.completed })
      ⟨"reject", none⟩ "ua" "reject" "" "" "ua" 99
      (by decide) (by decide) (by decide) (by decide)).1.1

/-- Concrete well-formed request used for the oversized-body scenario. -/
def reqC5 : ClaudeCodeWebhookRequest :=
  { emptyRequest with hookEventName := "PreToolUse", sessionID := "s5"
                      toolName := "Bash", toolInput := some ⟨"ls", ""⟩ }

/-- Claim C5 counterexample: a well-formed body one byte over 1 MiB is
accepted with 200 — the handler's `maxBodySize` field is never consulted —
and a task is created. -/
theorem oversized_body_counterexample :
    (handleNonBlockingWebhook ⟨[], [], []⟩ (WebhookBody.valid reqC5 (1048576 + 1))
        HookType.preToolUse "t5" 0).1.status = 200 ∧
    ¬ (handleNonBlockingWebhook ⟨[], [], []⟩ (WebhookBody.valid reqC5 (1048576 + 1))
        HookType.preToolUse "t5" 0).1.status = 400 ∧
    (handleNonBlockingWebhook ⟨[], [], []⟩ (WebhookBody.valid reqC5 (1048576 + 1))
        HookType.preToolUse "t5" 0).2.tasks = [newTask "t5" HookType.preToolUse 0] := by
  decide

/-- Claim C5 (amended): a tool command longer than 5000 characters is
rejected with 400 and no task is created — for every body length, since
the handler never compares the body against its 1 MiB field. -/
theorem long_command_rejected (st : GatewayState) (req : ClaudeCodeWebhookRequest)
    (ti : ToolInput) (urlType : HookType) (newID : String) (now : Nat)
    (hti : req.toolInput = some ti) (hne : ti.command ≠ "")
    (hlen : ti.command.length > 5000) :
    ∀ byteLen : Nat,
      handleNonBlockingWebhook st (WebhookBody.valid req byteLen) urlType newID now =
        ({ status := 400
           body := .err ("Validation error: "
                          ++ ("command too long: " ++ toString ti.command.length
                               ++ " characters (max 5000)")) }, st) := by
  intro byteLen
  have hval : validateRequest req =
      .error ("command too long: " ++ toString ti.command.length
               ++ " characters (max 5000)") := by
    simp [validateRequest, hti, hne, hlen]
  simp [handleNonBlockingWebhook, parseAndValidateRequest, hval]

/-- Command of 5001 characters for the C5 witness. -/
def cmdC5w : String := String.mk (List.replicate 5001 'A')

/-- Request carrying the 5001-character command. -/
def reqC5w : ClaudeCodeWebhookRequest :=
  { emptyRequest with hookEventName := "PreToolUse", toolInput := some ⟨cmdC5w, ""⟩ }

/-- Length of the 5001-character command. -/
theorem cmdC5w_length : cmdC5w.length = 5001 := by
  have h : cmdC5w.length = (List.replicate 5001 'A').length := rfl
  rw [h, List.length_replicate]

/-- The 5001-character command is non-empty. -/
theorem cmdC5w_ne : cmdC5w ≠ "" := by
  intro h
  have h2 := cmdC5w_length
  rw [h] at h2
  exact absurd h2 (by decide)

/-- Claim C5 witness: the amended statement at the 5001-character command. -/
theorem long_command_rejected_witness :
    (handleNonBlockingWebhook ⟨[], [], []⟩ (WebhookBody.valid reqC5w 64)
        HookType.postToolUse "w5" 0).2.tasks = [] := by
  rw [long_command_rejected ⟨[], [], []⟩ reqC5w ⟨cmdC5w, ""⟩ HookType.postToolUse "w5" 0
        rfl cmdC5w_ne (by rw [cmdC5w_length]; decide) 64]

/-- Notification-shaped body used against the dedicated stop route. -/
def reqC6 : ClaudeCodeWebhookRequest :=
  { emptyRequest with hookEventName := "Notification", sessionID := "s6"
                      message := "attention" }

/-- Claim C6 counterexample: a body declaring `hook_event_name` =
Notification posted to the dedicated stop route is recorded as a Stop task
and answered with the suppressed tool-use reply — the body does not win on
that route. -/
theorem stop_route_ignores_body_counterexample :
    (handleStop ⟨[], [], []⟩ (WebhookBody.valid reqC6 64) "t6" 0).2.tasks
      = [newTask "t6" HookType.stop 0] ∧
    (newTask "t6" HookType.stop 0).hookType ≠ HookType.notification ∧
    (handleStop ⟨[], [], []⟩ (WebhookBody.valid reqC6 64) "t6" 0).1.body
      = .hook nonBlockingReply := by
  decide

/-- Claim C6 (amended): on the routes served by the shared non-blocking
handler (pre-tool-use, post-tool-use, user-prompt-submit, pre-compact,
subagent-stop and the generic slug route), a recognised `hook_event_name`
in the JSON body determines the event kind and makes the handler's reply
and state change independent of the URL-derived kind; the dedicated
notification and stop routes ignore the body's kind. -/
theorem body_wins_on_nonblocking_routes (st : GatewayState)
    (req : ClaudeCodeWebhookRequest) (byteLen : Nat) (url url2 : HookType)
    (newID : String) (now : Nat) (k : HookType)
    (hk : parseHookType req.hookEventName = .ok k) :
    resolveHookType url (WebhookBody.valid req byteLen) = k ∧
    handleNonBlockingWebhook st (WebhookBody.valid req byteLen) url newID now =
      handleNonBlockingWebhook st (WebhookBody.valid req byteLen) url2 newID now := by
  have hmt : parseHookType "" = Except.error ("invalid hook type: " ++ "") := rfl
  have hne : req.hookEventName ≠ "" := by
    intro h
    rw [h, hmt] at hk
    exact Except.noConfusion hk
  have h1 : ∀ u : HookType, resolveHookType u (WebhookBody.valid req byteLen) = k := by
    intro u
    simp [resolveHookType, bodyEventName, hne, hk]
  refine ⟨h1 url, ?_⟩
  unfold handleNonBlockingWebhook
  rw [h1 url, h1 url2]

/-- Claim C6 witness: a Notification body gives the same result on the
pre-tool-use and stop-typed invocations of the shared handler. -/
theorem body_wins_on_nonblocking_routes_witness :
    resolveHookType HookType.preToolUse (WebhookBody.valid reqC6 64) = HookType.notification :=
  (body_wins_on_nonblocking_routes ⟨[], [], []⟩ reqC6 64 HookType.preToolUse
      HookType.stop "w6" 0 HookType.notification rfl).1

/-- Notification-shaped body used against a non-notification route. -/
def reqC7 : ClaudeCodeWebhookRequest :=
  { emptyRequest with hookEventName := "Notification", sessionID := "s7"
                      message := "needs attention" }

/-- Claim C7 counterexample: a Notification event arriving on the
pre-tool-use route is resolved as Notification (the body wins) and yet is
answered with `suppressOutput` true, so the suppress flag does not follow
the event kind on every URL. -/
theorem notification_body_on_other_route_counterexample :
    resolveHookType HookType.preToolUse (WebhookBody.valid reqC7 64) = HookType.notification ∧
    (handleNonBlockingWebhook ⟨[], [], []⟩ (WebhookBody.valid reqC7 64)
        HookType.preToolUse "t7" 0).1
      = { status := 200, body := .hook nonBlockingReply } ∧
    nonBlockingReply.suppressOutput = true := by
  decide

/-- Claim C7 (amended): every immediate webhook reply has continue true;
the shared non-blocking handler and the dedicated stop route always answer
with `suppressOutput` true regardless of the event kind, and only the
dedicated notification route answers with `suppressOutput` false. -/
theorem immediate_response_flags (st : GatewayState) (body : WebhookBody)
    (urlType : HookType) (newID : String) (now : Nat)
    (req : ClaudeCodeWebhookRequest)
    (hok : parseAndValidateRequest body = .ok req) :
    (handleNonBlockingWebhook st body urlType newID now).1
      = { status := 200, body := .hook nonBlockingReply } ∧
    (handleStop st body newID now).1 = { status := 200, body := .hook nonBlockingReply } ∧
    (handleNotification st body newID now).1
      = { status := 200, body := .hook notificationReply } ∧
    nonBlockingReply.cont = true ∧ nonBlockingReply.suppressOutput = true ∧
    notificationReply.cont = true ∧ notificationReply.suppressOutput = false := by
  unfold handleNonBlockingWebhook handleStop handleNotification
  rw [hok]
  exact ⟨rfl, rfl, rfl, rfl, rfl, rfl, rfl⟩

/-- Claim C7 witness: the flags at a concrete PostToolUse body. -/
theorem immediate_response_flags_witness :
    (handleNotification ⟨[], [], []⟩ WebhookBody.empty "w7" 0).1
      = { status := 200, body := .hook notificationReply } :=
  (immediate_response_flags ⟨[], [], []⟩ WebhookBody.empty HookType.postToolUse
      "w7" 0 emptyRequest rfl).2.2.1

/-- Concrete pending task for the unvalidated-action scenario. -/
def taskC9 : Task := newTask "c9" HookType.preToolUse 0

/-- Claim C9 counterexample: the empty string — an action value outside
approve/reject/continue/cancel — is not accepted and recorded: the API
endpoint rejects it with 400 ("Action is required") and leaves the state
untouched, so `Task.TakeAction` never records it. -/
theorem empty_action_counterexample :
    (handleTaskActionAPI ⟨[taskC9], [], []⟩ true "c9" (some ⟨"", none⟩) "ua" 1).1.status = 400 ∧
    (handleTaskActionAPI ⟨[taskC9], [], []⟩ true "c9" (some ⟨"", none⟩) "ua" 1).2
      = ⟨[taskC9], [], []⟩ ∧
    taskC9.actionTaken = none := by
  decide

/-- Claim C9 (amended): the decision endpoints never check the action
against the known decision set — only emptiness; for every non-empty
action value outside approve/reject/continue/cancel, `Task.TakeAction`
records it in action_taken and advances updated_at while leaving the
status field unchanged, a Pending task remains Pending and actionable, the
API endpoint acknowledges with 200, and the decision-to-response mapping
turns such a value into an Approved (continue true) response. -/
theorem unknown_action_recorded_pending (st : GatewayState) (taskID : String)
    (task : Task) (action : ActionType) (rd : ResponseData) (userAgent : String)
    (now : Nat)
    (hfind : getByID st.tasks taskID = some task)
    (hpend : task.status = TaskStatus.pending)
    (hne : action ≠ "")
    (ha : action ≠ actionTypeApprove) (hr : action ≠ actionTypeReject)
    (hc : action ≠ actionTypeContinue) (hx : action ≠ actionTypeCancel) :
    (task.takeAction action rd now).status = task.status ∧
    (task.takeAction action rd now).actionTaken = some action ∧
    (task.takeAction action rd now).updatedAt = now ∧
    (task.takeAction action rd now).isActionable = true ∧
    (handleTaskActionAPI st true taskID (some ⟨action, none⟩) userAgent now).1.status = 200 ∧
    getByID (handleTaskActionAPI st true taskID (some ⟨action, none⟩) userAgent now).2.tasks
        taskID
      = some (task.takeAction action
          [("user_agent", userAgent), ("api_request", "true")] now) ∧
    (buildResponseFromDecision taskID action now).cont = true ∧
    (buildResponseFromDecision taskID action now).decision = actionTypeApprove := by
  have htact : ∀ rd2 : ResponseData, task.takeAction action rd2 now =
      { task with actionTaken := some action, responseData := some rd2, updatedAt := now } := by
    intro rd2
    simp only [Task.takeAction, ha, hr, hc, hx, reduceIte, ite_false]
  have hid : task.id = taskID := getByID_some_id st.tasks taskID task hfind
  have hactb : task.isActionable = true := by
    unfold Task.isActionable
    rw [hpend]
    rfl
  have hb : buildResponseFromDecision taskID action now = newApprovedResponse taskID now := by
    unfold buildResponseFromDecision
    rw [if_neg ha, if_neg hr, if_neg hx]
  have hsvc : ∀ (stX : GatewayState), getByID stX.tasks taskID = some task →
      serviceTakeAction stX taskID action
          [("user_agent", userAgent), ("api_request", "true")] now =
        (.ok (), { stX with
          tasks := updateTask stX.tasks (task.takeAction action
            [("user_agent", userAgent), ("api_request", "true")] now)
          history := ⟨(task.takeAction action
              [("user_agent", userAgent), ("api_request", "true")] now).id, action,
              [("user_agent", userAgent), ("api_request", "true")]⟩ :: stX.history }) := by
    intro stX hf
    unfold serviceTakeAction
    rw [hf]
    simp [hactb]
  have htid : (task.takeAction action
      [("user_agent", userAgent), ("api_request", "true")] now).id = taskID := by
    rw [htact]
    exact hid
  have hend : (handleTaskActionAPI st true taskID (some ⟨action, none⟩) userAgent now).1.status
        = 200 ∧
      getByID (handleTaskActionAPI st true taskID (some ⟨action, none⟩) userAgent now).2.tasks
          taskID
        = some (task.takeAction action
            [("user_agent", userAgent), ("api_request", "true")] now) := by
    simp only [handleTaskActionAPI, Bool.not_true, Bool.false_eq_true, reduceIte, hne,
      ite_false, Option.getD_none, List.nil_append]
    by_cases hreg : hasPendingDecision taskID st.registry
    · simp only [hreg, reduceIte]
      rw [hsvc ⟨st.tasks, st.history, (sendDecision taskID action st.registry).2⟩ hfind]
      exact ⟨rfl, getByID_updateTask st.tasks taskID task _ hfind htid⟩
    · simp only [hreg, Bool.false_eq_true, reduceIte]
      rw [hsvc st hfind]
      exact ⟨rfl, getByID_updateTask st.tasks taskID task _ hfind htid⟩
  refine ⟨?_, ?_, ?_, ?_, hend.1, hend.2, ?_, ?_⟩
  · rw [htact]
  · rw [htact]
  · rw [htact]
  · rw [htact]
    unfold Task.isActionable
    rw [hpend]
    rfl
  · rw [hb]
    rfl
  · rw [hb]
    rfl

/-- Claim C9 witness: the amended statement at the "retry" action on a
concrete Pending task. -/
theorem unknown_action_recorded_pending_witness :
    (handleTaskActionAPI ⟨[taskC9], [], []⟩ true "c9" (some ⟨"retry", none⟩) "ua" 4).1.status
      = 200 :=
  (unknown_action_recorded_pending ⟨[taskC9], [], []⟩ "c9" taskC9 "retry" [] "ua" 4
      (by decide) (by decide) (by decide) (by decide) (by decide) (by decide)
      (by decide)).2.2.2.2.1

/-- Task service configuration for the blocking-timeout scenario
(`NewTaskService` defaults as installed by cmd/server/main.go). -/
def cfgC1 : TaskServiceConfig :=
  { webDomain := "localhost:8080", autoNotifyHookTypes := defaultAutoNotifyHookTypes }

/-- PreToolUse request for the blocking-timeout scenario. -/
def reqC1 : ClaudeCodeWebhookRequest :=
  { emptyRequest with hookEventName := "PreToolUse", sessionID := "s1"
                      toolName := "Bash", toolInput := some ⟨"ls", ""⟩ }

/-- On a timeout, `CreateTaskAndWaitForDecision` returns the decision
timeout error and stores the freshly created task with status Failed. -/
theorem createTaskAndWait_timeout (cfg : TaskServiceConfig) (st : GatewayState)
    (hookData : HookData) (newID : String) (now : Nat) :
    createTaskAndWaitForDecision cfg st hookData newID now WaitOutcome.timeout
      = (.error errDecisionTimeout,
         { tasks := updateTask (newTask newID hookData.type now :: st.tasks)
             { newTask newID hookData.type now with status := TaskStatus.failed }
           history :=
             if shouldNotify cfg hookData.type then
               ⟨newID, "notified", []⟩
                 :: ⟨newID, "created", [("hook_type", hookData.type.toGoString),
                      ("blocking", "true")]⟩ :: st.history
             else
               ⟨newID, "created", [("hook_type", hookData.type.toGoString),
                  ("blocking", "true")]⟩ :: st.history
           registry := removeDecisionChannel newID (createDecisionChannel newID st.registry) }) := by
  unfold createTaskAndWaitForDecision waitForDecision
  by_cases hn : shouldNotify cfg hookData.type
  · simp [hn, newTask]
  · simp [hn, newTask]

/-- Claim C1 counterexample: on a blocking PreToolUse webhook where the
decision times out, the agent receives HTTP 500 (not a normal 200 with the
timeout body) while the task does end up Failed. -/
theorem blocking_timeout_claim_counterexample :
    (handleBlockingWebhook cfgC1 ⟨[], [], []⟩ (WebhookBody.valid reqC1 120)
        HookType.preToolUse "t1" 0 WaitOutcome.timeout).1.status = 500 ∧
    ¬ (handleBlockingWebhook cfgC1 ⟨[], [], []⟩ (WebhookBody.valid reqC1 120)
        HookType.preToolUse "t1" 0 WaitOutcome.timeout).1.status = 200 ∧
    getByID (handleBlockingWebhook cfgC1 ⟨[], [], []⟩ (WebhookBody.valid reqC1 120)
        HookType.preToolUse "t1" 0 WaitOutcome.timeout).2.tasks "t1"
      = some { newTask "t1" HookType.preToolUse 0 with status := TaskStatus.failed } := by
  decide

/-- Claim C1 (amended): when no decision arrives within the timeout on a
blocking webhook, the created task's status is set to Failed and the
service returns the decision-timeout error, which the handler answers with
HTTP 500 and body error "Failed to process blocking webhook"; the 200
timeout response of `NewTimeoutResponse` is never sent. -/
theorem blocking_timeout_returns_500_and_failed (cfg : TaskServiceConfig)
    (st : GatewayState) (req : ClaudeCodeWebhookRequest) (byteLen : Nat)
    (urlType : HookType) (newID : String) (now : Nat)
    (hval : validateRequest req = .ok ()) :
    (handleBlockingWebhook cfg st (WebhookBody.valid req byteLen) urlType newID now
        WaitOutcome.timeout).1
      = { status := 500, body := .err "Failed to process blocking webhook" } ∧
    getByID (handleBlockingWebhook cfg st (WebhookBody.valid req byteLen) urlType newID
        now WaitOutcome.timeout).2.tasks newID
      = some { newTask newID (resolveHookType urlType (WebhookBody.valid req byteLen)) now
               with status := TaskStatus.failed } := by
  have hp : parseAndValidateRequest (WebhookBody.valid req byteLen) = .ok req := by
    simp [parseAndValidateRequest, hval]
  constructor
  · simp only [handleBlockingWebhook, hp, createTaskAndWait_timeout]
  · simp only [handleBlockingWebhook, hp, createTaskAndWait_timeout]
    simp [getByID, updateTask, newTask]

/-- Claim C1 witness: the amended statement at a concrete request. -/
theorem blocking_timeout_returns_500_and_failed_witness :
    (handleBlockingWebhook cfgC1 ⟨[], [], []⟩ (WebhookBody.valid reqC1 120)
        HookType.userPromptSubmit "w1" 3 WaitOutcome.timeout).1
      = { status := 500, body := .err "Failed to process blocking webhook" } :=
  (blocking_timeout_returns_500_and_failed cfgC1 ⟨[], [], []⟩ reqC1 120
      HookType.userPromptSubmit "w1" 3 rfl).1

end Haiper
